import Mathlib

/-!
# Verification of the claude-coach structured-workout export codec layer

Shallow embedding of the export codec (`src/viewer/lib/export/{erg,zwo,fit,ics,index}.ts`)
into Lean 4, together with proofs settling the frozen claims about it.

Modelling conventions:
* JavaScript `number` arithmetic is modelled by exact rationals (`ℚ`); the float
  literal `0.1` is modelled as `1/10`.  None of the verified properties depends
  on float rounding at representation boundaries.
* Fallible TypeScript functions (which `throw`) are modelled with `Except String`.
* Browser side effects (`downloadFile`, the JSZip archive sink) are external to
  the codec layer and are dropped from the embedding; the functions' returned
  data is kept in full.
* The XML / text serialisation of a segment is abstracted to a constructor of an
  inductive type carrying exactly the numeric attributes the source writes
  (durations in seconds, powers as decimal fractions before `toFixed`
  formatting); string formatting itself is not claim-relevant.
-/

namespace Coach

/-! ## Data model (src/schema/training-plan.ts, as described by the spec §3) -/

/-- Sport tags of a workout (fixed enumeration, includes non-exportable rest/race). -/
inductive Sport
  | swim | bike | run | strength | brick | race | rest
  deriving DecidableEq, Repr

/-- Workout-type tags (used for intensity defaults when the workout is unstructured). -/
inductive WorkoutType
  | recovery | endurance | tempo | threshold | vo2max | intervals | long | rest | other
  deriving DecidableEq, Repr

/-- Duration units of a workout step. -/
inductive DurationUnit
  | seconds | minutes | hours | meters | kilometers | miles
  deriving DecidableEq, Repr

/-- A (value, unit) duration pair. -/
structure Duration where
  value : ℚ
  unit : DurationUnit
  deriving DecidableEq, Repr

/-- Intensity units of a workout step. -/
inductive IntensityUnit
  | percentFtp | percentLthr | hrZone | rpe
  deriving DecidableEq, Repr

/-- Intensity: point value plus optional low/high bounds denoting a ramp. -/
structure Intensity where
  unit : IntensityUnit
  value : ℚ
  valueLow : Option ℚ := none
  valueHigh : Option ℚ := none
  deriving DecidableEq, Repr

/-- Optional cadence range of a step. -/
structure Cadence where
  low : Option ℚ := none
  high : Option ℚ := none
  deriving DecidableEq, Repr

/-- Step-kind tag of a workout step. -/
inductive StepType
  | warmup | cooldown | work | recovery | rest | active
  deriving DecidableEq, Repr

/-- Atomic workout instruction. -/
structure WorkoutStep where
  type : StepType
  duration : Duration
  intensity : Intensity
  cadence : Option Cadence := none
  deriving DecidableEq, Repr

/-- A repeated block: a repeat count and the list of steps replayed that many times. -/
structure IntervalSet where
  repeats : ℕ
  steps : List WorkoutStep
  deriving DecidableEq, Repr

/-- A main-set item: either a single step or an interval set (the source
discriminates by presence of a `repeats` field). -/
inductive MainItem
  | step (s : WorkoutStep)
  | set (iset : IntervalSet)
  deriving DecidableEq, Repr

/-- Structured body of a workout: warm-up steps, main-set items, cool-down steps.
Absent warm-up/cool-down lists are modelled as `[]`. -/
structure StructuredWorkout where
  warmup : List WorkoutStep := []
  main : List MainItem
  cooldown : List WorkoutStep := []
  deriving DecidableEq, Repr

/-- One training session.  The source field `structure` is a Lean keyword and is
named `structured` here.  `durationMinutes` is optional in the schema. -/
structure Workout where
  id : String
  name : String
  description : String := ""
  sport : Sport
  type : WorkoutType
  durationMinutes : Option ℚ := none
  structured : Option StructuredWorkout := none
  deriving DecidableEq, Repr

/-- Display name of a sport as interpolated into error messages
(`${workout.sport}` in template literals). -/
def sportName : Sport → String
  | .swim => "swim"
  | .bike => "bike"
  | .run => "run"
  | .strength => "strength"
  | .brick => "brick"
  | .race => "race"
  | .rest => "rest"

/-! ## Shared numeric helpers -/

/-- JavaScript `Math.round`: round half away from zero towards `+∞`,
i.e. `Math.round x = ⌊x + 1/2⌋`. -/
def jsRound (q : ℚ) : ℤ := ⌊q + 1/2⌋

/-- Models the idiom `workout.durationMinutes || 60` used identically at
erg.ts:122, zwo.ts:206 and fit.ts:268: in JavaScript both `undefined` and `0`
are falsy, so an absent or zero duration falls back to 60 minutes. -/
def effectiveTotalMinutes (w : Workout) : ℚ :=
  match w.durationMinutes with
  | none => 60
  | some v => if v = 0 then 60 else v

/-- Warm-up length of the simple three-phase profile:
`Math.min(15, Math.max(5, Math.round(totalMinutes * 0.1)))` (erg.ts:149, zwo.ts:209,
fit.ts:271). -/
def warmupMinutes (total : ℚ) : ℚ :=
  min 15 (max 5 ((jsRound (total * (1/10)) : ℤ) : ℚ))

/-- Cool-down length of the simple three-phase profile:
`Math.min(10, Math.max(5, Math.round(totalMinutes * 0.1)))` (erg.ts:154, zwo.ts:239,
fit.ts:282). -/
def cooldownMinutes (total : ℚ) : ℚ :=
  min 10 (max 5 ((jsRound (total * (1/10)) : ℤ) : ℚ))

/-! ## ERG/MRC encoder (src/viewer/lib/export/erg.ts) -/

/-- erg.ts:26: only cycling workouts are supported by ERG/MRC export. -/
def isErgSupported (sport : Sport) : Bool := sport = .bike

/-- erg.ts:33: intensity is already stored as a percentage; identity. -/
def intensityToPercent (intensity : ℚ) : ℚ := intensity

/-- erg.ts:67–85 (`getDurationMinutes` closure): convert a step duration to
minutes; distance-based durations are estimated at ~30 km/h; the `miles`
unit falls through to `return step.duration.value`. -/
def getDurationMinutes (step : WorkoutStep) : ℚ :=
  match step.duration.unit with
  | .seconds => step.duration.value / 60
  | .minutes => step.duration.value
  | .hours => step.duration.value * 60
  | .meters => step.duration.value / 1000 / 30 * 60
  | .kilometers => step.duration.value / 30 * 60
  | .miles => step.duration.value

/-- erg.ts:46–65 (`addStep` closure): each step contributes exactly two
breakpoints.  A ramp step (both `valueLow` and `valueHigh` present) contributes
`(t, low)` and `(t + d, high)`; a steady step contributes `(t, value)` twice.
This helper walks the flattened step list carrying `currentMinute`. -/
def dataPointsAux (currentMinute : ℚ) : List WorkoutStep → List (ℚ × ℚ)
  | [] => []
  | step :: rest =>
    let percent := intensityToPercent step.intensity.value
    let d := getDurationMinutes step
    match step.intensity.valueLow, step.intensity.valueHigh with
    | some lo, some hi =>
      (currentMinute, intensityToPercent lo) :: (currentMinute + d, intensityToPercent hi)
        :: dataPointsAux (currentMinute + d) rest
    | _, _ =>
      (currentMinute, percent) :: (currentMinute + d, percent)
        :: dataPointsAux (currentMinute + d) rest

/-- erg.ts:96–102: the two nested loops `for i < repeats { for step of steps }`
replay the block `repeats` times; a single step is emitted once. -/
def expandMainItem : MainItem → List WorkoutStep
  | .step s => [s]
  | .set iset => (List.replicate iset.repeats iset.steps).flatten

/-- The order in which erg.ts:87–113 walks a structured workout: warm-up steps,
then the expanded main set, then cool-down steps. -/
def expandedSteps (s : StructuredWorkout) : List WorkoutStep :=
  s.warmup ++ s.main.flatMap expandMainItem ++ s.cooldown

/-- erg.ts:42–116 `generateDataPoints`: `[minutes, percent]` breakpoints of a
structured workout. -/
def generateDataPoints (s : StructuredWorkout) : List (ℚ × ℚ) :=
  dataPointsAux 0 (expandedSteps s)

/-- erg.ts:126–146: fixed main-phase intensity table of the simple profile,
keyed by workout type (default 65). -/
def ergMainPercent : WorkoutType → ℚ
  | .recovery => 55
  | .endurance => 65
  | .tempo => 80
  | .threshold => 95
  | .vo2max => 110
  | .intervals => 85
  | _ => 65

/-- erg.ts:121–164 `generateSimpleDataPoints`: canonical three-phase profile
when no structure is provided (warm-up ramp 40→65, flat main phase at the
table intensity, cool-down ramp 60→40). -/
def generateSimpleDataPoints (w : Workout) : List (ℚ × ℚ) :=
  let totalMinutes := effectiveTotalMinutes w
  let mainPercent := ergMainPercent w.type
  let wm := warmupMinutes totalMinutes
  let cm := cooldownMinutes totalMinutes
  let mainMinutes := totalMinutes - wm - cm
  [(0, 40), (wm, 65),
   (wm, mainPercent), (wm + mainMinutes, mainPercent),
   (wm + mainMinutes, 60), (totalMinutes, 40)]

/-- erg.ts:169–203 `generateMrc`, abstracted to its data-point payload: errors
on a non-bike sport, otherwise emits the structured or simple breakpoints. -/
def generateMrc (w : Workout) : Except String (List (ℚ × ℚ)) :=
  if ¬ isErgSupported w.sport then
    .error "ERG/MRC export only supports bike workouts"
  else
    .ok (match w.structured with
      | some s => generateDataPoints s
      | none => generateSimpleDataPoints w)

/-! ## ZWO encoder (src/viewer/lib/export/zwo.ts) -/

/-- zwo.ts:25: Zwift export supports bike and run workouts. -/
def isZwoSupported (sport : Sport) : Bool := sport = .bike ∨ sport = .run

/-- zwo.ts:45 `intensityToDecimal`: percentage → decimal fraction. -/
def intensityToDecimal (intensity : ℚ) : ℚ := intensity / 100

/-- zwo.ts:54–67 `durationToSeconds`: time units convert exactly; distance
units fall through to `return value` (returned as-is). -/
def durationToSeconds (value : ℚ) (unit : DurationUnit) : ℚ :=
  match unit with
  | .seconds => value
  | .minutes => value * 60
  | .hours => value * 3600
  | _ => value

/-- The cadence attribute written on a ZWO element: absent, a single
`Cadence="…"` value, or a `CadenceLow`/`CadenceHigh` pair. -/
inductive CadenceAttr
  | none
  | single (c : ℚ)
  | range (low high : ℚ)
  deriving DecidableEq, Repr

/-- One ZWO `<workout>` child element, abstracted to its numeric attributes
(durations in seconds, powers as decimal fractions before `toFixed(2)`). -/
inductive ZwoSegment
  | warmup (duration powerLow powerHigh : ℚ)
  | cooldown (duration powerLow powerHigh : ℚ)
  | steadyState (duration power : ℚ) (cadence : CadenceAttr)
  | intervalsT (repeats : ℕ) (onDuration offDuration onPower offPower : ℚ)
      (cadence : CadenceAttr)
  deriving DecidableEq, Repr

/-- zwo.ts:79–86 `generateWarmup`: a `<Warmup>` element ramping from
`valueLow ?? value*0.6` to `valueHigh ?? value`. -/
def generateWarmup (step : WorkoutStep) : ZwoSegment :=
  let duration := durationToSeconds step.duration.value step.duration.unit
  let intensityValue := step.intensity.value
  let startPower := intensityToDecimal (step.intensity.valueLow.getD (intensityValue * (6/10)))
  let endPower := intensityToDecimal (step.intensity.valueHigh.getD intensityValue)
  .warmup duration startPower endPower

/-- zwo.ts:91–98 `generateCooldown`: a `<Cooldown>` element with
`PowerLow = valueLow ?? value*0.5` and `PowerHigh = valueHigh ?? value`. -/
def generateCooldown (step : WorkoutStep) : ZwoSegment :=
  let duration := durationToSeconds step.duration.value step.duration.unit
  let intensityValue := step.intensity.value
  let startPower := intensityToDecimal (step.intensity.valueHigh.getD intensityValue)
  let endPower := intensityToDecimal (step.intensity.valueLow.getD (intensityValue * (1/2)))
  .cooldown duration endPower startPower

/-- zwo.ts:107–113: the cadence attribute of a `<SteadyState>` element:
single value when `high === low` (including both absent), low/high pair
otherwise. -/
def steadyCadenceAttr : Option Cadence → CadenceAttr
  | Option.none => .none
  | some cad =>
    if cad.high = cad.low then .single (cad.low.getD 90)
    else .range (cad.low.getD 90) (cad.high.getD 100)

/-- zwo.ts:103–122 `generateSteadyState`.  The `isRamp` parameter is `false`
at every call site in zwo.ts (lines 135, 169, 182, 192), so the `<Ramp>`
branch is unreachable and the element is always a `<SteadyState>`. -/
def generateSteadyState (step : WorkoutStep) : ZwoSegment :=
  let duration := durationToSeconds step.duration.value step.duration.unit
  let power := intensityToDecimal step.intensity.value
  .steadyState duration power (steadyCadenceAttr step.cadence)

/-- zwo.ts:127–155 `generateIntervalSet`: looks for a work step and a
recovery/rest step; with no work step it degrades to one `<SteadyState>` per
step of the set; otherwise it collapses the whole set into a single
`<IntervalsT>` built from the found work/recovery pair (recovery defaulting
to 60 s at 50%). -/
def generateIntervalSet (iset : IntervalSet) : List ZwoSegment :=
  let steps := iset.steps
  match steps.find? (fun s => decide (s.type = .work)) with
  | Option.none => steps.map generateSteadyState
  | some workStep =>
    let onDuration := durationToSeconds workStep.duration.value workStep.duration.unit
    let onPower := intensityToDecimal workStep.intensity.value
    let recoveryStep := steps.find? (fun s => decide (s.type = .recovery ∨ s.type = .rest))
    let offDuration := match recoveryStep with
      | some r => durationToSeconds r.duration.value r.duration.unit
      | Option.none => 60
    let offPower := match recoveryStep with
      | some r => intensityToDecimal r.intensity.value
      | Option.none => 1/2
    let cadence := match workStep.cadence with
      | some c => CadenceAttr.single (c.low.getD 90)
      | Option.none => CadenceAttr.none
    [.intervalsT iset.repeats onDuration offDuration onPower offPower cadence]

/-- zwo.ts:160–198 `generateSegmentsFromStructure`: warm-up steps (as
`<Warmup>` when typed warmup, else `<SteadyState>`), main-set items (interval
sets via `generateIntervalSet`, single steps as `<SteadyState>`), cool-down
steps (as `<Cooldown>` when typed cooldown, else `<SteadyState>`). -/
def generateSegmentsFromStructure (s : StructuredWorkout) : List ZwoSegment :=
  (s.warmup.map fun step =>
    if step.type = .warmup then generateWarmup step else generateSteadyState step)
  ++ (s.main.flatMap fun item =>
    match item with
    | .set iset => generateIntervalSet iset
    | .step step => [generateSteadyState step])
  ++ (s.cooldown.map fun step =>
    if step.type = .cooldown then generateCooldown step else generateSteadyState step)

/-- zwo.ts:213–236: fixed main-phase power table of the simple profile,
keyed by workout type (default endurance 0.65). -/
def zwoMainPower : WorkoutType → ℚ
  | .recovery => 55/100
  | .endurance => 65/100
  | .tempo => 80/100
  | .threshold => 95/100
  | .vo2max => 110/100
  | .intervals => 85/100
  | .long => 65/100
  | _ => 65/100

/-- zwo.ts:204–251 `generateSimpleWorkout`: three-phase profile when no
structure is provided — `<Warmup PowerLow="0.40" PowerHigh="0.65">`, a flat
`<SteadyState>` at the table power, `<Cooldown PowerLow="0.40" PowerHigh="0.60">`. -/
def generateSimpleWorkout (w : Workout) : List ZwoSegment :=
  let totalMinutes := effectiveTotalMinutes w
  let wm := warmupMinutes totalMinutes
  let cm := cooldownMinutes totalMinutes
  let mainMinutes := totalMinutes - wm - cm
  [.warmup (wm * 60) (40/100) (65/100),
   .steadyState (mainMinutes * 60) (zwoMainPower w.type) .none,
   .cooldown (cm * 60) (40/100) (60/100)]

/-- zwo.ts:256–284 `generateZwo`, abstracted to its segment payload: errors on
an unsupported sport, otherwise emits the structured or simple segments. -/
def generateZwo (w : Workout) : Except String (List ZwoSegment) :=
  if ¬ isZwoSupported w.sport then
    .error ("ZWO export not supported for " ++ sportName w.sport ++ " workouts")
  else
    .ok (match w.structured with
      | some s => generateSegmentsFromStructure s
      | none => generateSimpleWorkout w)

/-! ## FIT encoder (src/viewer/lib/export/fit.ts) -/

/-- fit.ts:33: FIT supports most sports, excluding rest and race. -/
def isFitSupported (sport : Sport) : Bool := sport ≠ .rest ∧ sport ≠ .race

/-- One step record of the simple three-phase FIT profile (fit.ts:266–311);
fields mirror the object literals pushed by `generateSimpleSteps`.
`durationValue` is in milliseconds. -/
structure FitSimpleStep where
  messageIndex : ℕ
  workoutStepName : String
  intensity : String
  durationType : String
  durationValue : ℚ
  targetType : String
  notes : Option String := Option.none
  deriving DecidableEq, Repr

/-- fit.ts:285–288: intensity tag of the simple profile's main step. -/
def fitMainIntensity (t : WorkoutType) : String :=
  if t = .recovery then "recovery"
  else if t = .rest then "rest"
  else if t = .intervals ∨ t = .vo2max then "interval"
  else "active"

/-- fit.ts:266–311 `generateSimpleSteps`: three step messages (warm-up, main,
cool-down) when no structure is provided; step count is 3. -/
def generateSimpleSteps (w : Workout) : List FitSimpleStep :=
  let totalMinutes := effectiveTotalMinutes w
  let wm := warmupMinutes totalMinutes
  let cm := cooldownMinutes totalMinutes
  let mainMinutes := totalMinutes - wm - cm
  [{ messageIndex := 0, workoutStepName := "Warm Up", intensity := "warmup",
     durationType := "time", durationValue := wm * 60 * 1000, targetType := "open" },
   { messageIndex := 1, workoutStepName := "Main Set", intensity := fitMainIntensity w.type,
     durationType := "time", durationValue := mainMinutes * 60 * 1000, targetType := "open",
     notes := some w.description },
   { messageIndex := 2, workoutStepName := "Cool Down", intensity := "cooldown",
     durationType := "time", durationValue := cm * 60 * 1000, targetType := "open" }]

/-- Payload of `generateFit` at the granularity the verified claims need: the
structured branch's message construction (fit.ts:141–261) is not touched by
any claim and is represented by its input structure; the simple branch carries
its three step records. -/
inductive FitContent
  | simple (steps : List FitSimpleStep)
  | structured (s : StructuredWorkout)
  deriving DecidableEq, Repr

/-- fit.ts:316–352 `generateFit`: errors on an unsupported sport (rest/race),
otherwise builds the step messages and delegates byte framing to the external
SDK encoder. -/
def generateFit (w : Workout) : Except String FitContent :=
  if ¬ isFitSupported w.sport then
    .error ("FIT export not supported for " ++ sportName w.sport ++ " workouts")
  else
    .ok (match w.structured with
      | some s => .structured s
      | none => .simple (generateSimpleSteps w))

/-! ## iCalendar line folding and escaping (src/viewer/lib/export/ics.ts)

JavaScript strings are sequences of UTF-16 code units and `String.length` /
`substring` operate on code units, not octets; the embedding models a string
as a `List Char`.  On ASCII input (all counterexamples below) code units,
characters and octets coincide exactly. -/

/-- Replace every occurrence of the single character `c` by the string `rep`
(the semantics of `String.replace(/c/g, rep)` for a one-character pattern). -/
def replaceChar (c : Char) (rep : List Char) (s : List Char) : List Char :=
  s.flatMap fun x => if x = c then rep else [x]

/-- ics.ts:24–31 `escapeIcsText`: sequentially backslash-escape backslash,
semicolon, comma and newline.  The final `.replace(/\\n/g, "\\n")` in the
source replaces the two-character sequence `\n` by itself and is the
identity, so it is omitted. -/
def escapeIcsText (s : List Char) : List Char :=
  replaceChar '\n' ['\\', 'n']
    (replaceChar ',' ['\\', ',']
      (replaceChar ';' ['\\', ';']
        (replaceChar '\\' ['\\', '\\'] s)))

/-- ics.ts:50–53: the continuation-line loop — each continuation line is one
space followed by the next 74 code units of the remainder. -/
def foldChunks (remaining : List Char) : List (List Char) :=
  if remaining.isEmpty then []
  else (' ' :: remaining.take 74) :: foldChunks (remaining.drop 74)
termination_by remaining.length
decreasing_by
  simp only [List.length_drop]
  cases remaining with
  | nil => simp_all
  | cons a l => simp; omega

/-- ics.ts:36–56 `foldLine`, as the list of physical lines the source joins
with CRLF: a line of at most 75 code units is left alone; otherwise the first
physical line is the first 75 code units and the rest is chunked by
`foldChunks`. -/
def foldLine (line : List Char) : List (List Char) :=
  if line.length ≤ 75 then [line]
  else line.take 75 :: foldChunks (line.drop 75)

/-! ## Export orchestrator (src/viewer/lib/export/index.ts) -/

/-- index.ts:20: the export formats. -/
inductive ExportFormat
  | zwo | fit | mrc | ics
  deriving DecidableEq, Repr

/-- index.ts:22–26 `ExportResult`. -/
structure ExportResult where
  success : Bool
  filename : String
  error : Option String := Option.none
  deriving DecidableEq, Repr

/-- index.ts:56: characters stripped from filenames. -/
def isInvalidFilenameChar (c : Char) : Bool :=
  c = '<' ∨ c = '>' ∨ c = ':' ∨ c = '"' ∨ c = '/' ∨ c = '\\' ∨ c = '|' ∨ c = '?' ∨ c = '*'

/-- Dropping a prefix cannot lengthen a list (termination helper). -/
theorem length_dropWhile_le (p : Char → Bool) (l : List Char) :
    (l.dropWhile p).length ≤ l.length := by
  induction l with
  | nil => simp
  | cons a t ih =>
    by_cases h : p a
    · simp [List.dropWhile_cons, h]; omega
    · simp [List.dropWhile_cons, h]

/-- index.ts:57: `.replace(/\s+/g, "_")` — collapse each maximal whitespace
run into one underscore. -/
def collapseWhitespace (l : List Char) : List Char :=
  match l with
  | [] => []
  | c :: rest =>
    if c.isWhitespace then '_' :: collapseWhitespace (rest.dropWhile Char.isWhitespace)
    else c :: collapseWhitespace rest
termination_by l.length
decreasing_by
  · have h := length_dropWhile_le Char.isWhitespace rest
    simp only [List.length_cons]
    omega
  · simp

/-- index.ts:54–59 `sanitizeFilename`: strip forbidden filesystem characters,
collapse whitespace runs to underscores, cap at 100 characters. -/
def sanitizeFilename (name : String) : String :=
  String.mk ((collapseWhitespace (name.toList.filter
    (fun c => ¬ isInvalidFilenameChar c))).take 100)

/-- index.ts:85–150 `exportWorkout`: per-format sport guard returning a
structured failure, then the generator call with its exceptions converted to
`{success := false, error}` by the surrounding try/catch; the triggered
download is a browser side effect outside this layer.  The `ics` format hits
the `default` branch (`Unknown format`). -/
def exportWorkout (w : Workout) (format : ExportFormat) : ExportResult :=
  let safeName := sanitizeFilename w.name
  match format with
  | .zwo =>
    if ¬ isZwoSupported w.sport then
      { success := false, filename := "",
        error := some "Zwift export only supports bike and run workouts" }
    else match generateZwo w with
      | .ok _ => { success := true, filename := safeName ++ ".zwo" }
      | .error e => { success := false, filename := "", error := some e }
  | .fit =>
    if ¬ isFitSupported w.sport then
      { success := false, filename := "",
        error := some ("FIT export not supported for " ++ sportName w.sport ++ " workouts") }
    else match generateFit w with
      | .ok _ => { success := true, filename := safeName ++ ".fit" }
      | .error e => { success := false, filename := "", error := some e }
  | .mrc =>
    if ¬ isErgSupported w.sport then
      { success := false, filename := "",
        error := some "MRC export only supports bike workouts" }
    else match generateMrc w with
      | .ok _ => { success := true, filename := safeName ++ ".mrc" }
      | .error e => { success := false, filename := "", error := some e }
  | .ics =>
    { success := false, filename := "", error := some "Unknown format: ics" }

/-! ### Batch export (index.ts:174–270)

`generateWorkoutContent` and `exportAllWorkouts` call the three per-format
generators; `generateFit` additionally depends on the delegated external SDK
encoder, which may throw for reasons outside this layer.  The batch machinery
is therefore parametrised by the generator family, instantiated with the
embedded generators by `theGenerators`; a family whose `fit` member errors
models a delegated-encoder failure. -/

/-- The formats `exportAllWorkouts` accepts (index.ts:212: `"zwo" | "fit" | "mrc"`). -/
inductive BatchFormat
  | zwo | fit | mrc
  deriving DecidableEq, Repr

/-- The content part of a produced artifact, per format. -/
inductive ArtifactContent
  | zwoC (segs : List ZwoSegment)
  | fitC (c : FitContent)
  | mrcC (pts : List (ℚ × ℚ))
  deriving DecidableEq, Repr

/-- The three per-workout generators the batch path invokes. -/
structure Generators where
  zwo : Workout → Except String (List ZwoSegment)
  fit : Workout → Except String FitContent
  mrc : Workout → Except String (List (ℚ × ℚ))

/-- The concrete generators of this repository. -/
def theGenerators : Generators :=
  { zwo := generateZwo, fit := generateFit, mrc := generateMrc }

/-- index.ts:174–204 `generateWorkoutContent`: per-format sport guard
returning `null`; the generator call sits inside `try { … } catch { return
null; }`, so a generator failure also yields `null` — never an exception. -/
def generateWorkoutContent (g : Generators) (format : BatchFormat) (w : Workout) :
    Option (ArtifactContent × String) :=
  let safeName := sanitizeFilename w.name
  match format with
  | .zwo =>
    if ¬ isZwoSupported w.sport then Option.none
    else match g.zwo w with
      | .ok c => some (.zwoC c, safeName ++ ".zwo")
      | .error _ => Option.none
  | .fit =>
    if ¬ isFitSupported w.sport then Option.none
    else match g.fit w with
      | .ok c => some (.fitC c, safeName ++ ".fit")
      | .error _ => Option.none
  | .mrc =>
    if ¬ isErgSupported w.sport then Option.none
    else match g.mrc w with
      | .ok c => some (.mrcC c, safeName ++ ".mrc")
      | .error _ => Option.none

/-- One day of a plan. -/
structure TrainingDay where
  workouts : List Workout
  deriving Repr

/-- One week of a plan. -/
structure TrainingWeek where
  days : List TrainingDay
  deriving Repr

/-- A multi-week training plan (only the parts the batch export reads). -/
structure TrainingPlan where
  weeks : List TrainingWeek
  deriving Repr

/-- The iteration order of `exportAllWorkouts` over a plan (index.ts:221–223). -/
def planWorkouts (plan : TrainingPlan) : List Workout :=
  plan.weeks.flatMap fun wk => wk.days.flatMap fun day => day.workouts

/-- Sport-support predicate `exportAllWorkouts` checks per format
(index.ts:231–242). -/
def batchSupported : BatchFormat → Sport → Bool
  | .zwo => isZwoSupported
  | .fit => isFitSupported
  | .mrc => isErgSupported

/-- Return record of `exportAllWorkouts` (index.ts:214). -/
structure BatchResult where
  exported : ℕ
  skipped : ℕ
  errors : List String
  deriving DecidableEq, Repr

/-- Loop body of index.ts:223–257: rest workouts and format-unsupported
sports are counted as skipped; otherwise `generateWorkoutContent` is awaited
inside `try { … } catch { errors.push(…) }` — but since
`generateWorkoutContent` catches internally and returns `null`, a `null`
result is counted as skipped and the catch branch (the only writer of
`errors`) cannot fire.  The archive sink (`zip.file`) is an external side
effect and is dropped. -/
def processWorkout (g : Generators) (format : BatchFormat)
    (acc : BatchResult) (w : Workout) : BatchResult :=
  if w.sport = .rest then { acc with skipped := acc.skipped + 1 }
  else if ¬ batchSupported format w.sport then { acc with skipped := acc.skipped + 1 }
  else match generateWorkoutContent g format w with
    | some _ => { acc with exported := acc.exported + 1 }
    | Option.none => { acc with skipped := acc.skipped + 1 }

/-- index.ts:210–270 `exportAllWorkouts`: fold the loop body over every
workout of the plan; the archive is only materialised when `exported > 0`
(a side effect outside this layer). -/
def exportAllWorkouts (g : Generators) (plan : TrainingPlan) (format : BatchFormat) :
    BatchResult :=
  (planWorkouts plan).foldl (processWorkout g format)
    { exported := 0, skipped := 0, errors := [] }

/-! ## Claims -/

/-- Claim C1, counterexample: the claimed strict order
`recovery < endurance < tempo < threshold < intervals < vo2max` fails on the
code at the adjacent pair (threshold, intervals): both tables put threshold
(95% / 0.95) strictly above intervals (85% / 0.85). -/
theorem C1_counterexample :
    ergMainPercent .threshold = 95 ∧ ergMainPercent .intervals = 85 ∧
    ¬ ergMainPercent .threshold < ergMainPercent .intervals ∧
    ¬ zwoMainPower .threshold < zwoMainPower .intervals := by
  norm_num [ergMainPercent, zwoMainPower]

/-- Claim C1 (amended): the main-phase target intensities of the simple-workout
synthesizer's fixed table are strictly increasing in the order
`recovery < endurance < tempo < intervals < threshold < vo2max`, in both the
ZWO simple-workout path and the MRC simple-data-point path. -/
theorem C1_main :
    (ergMainPercent .recovery < ergMainPercent .endurance ∧
     ergMainPercent .endurance < ergMainPercent .tempo ∧
     ergMainPercent .tempo < ergMainPercent .intervals ∧
     ergMainPercent .intervals < ergMainPercent .threshold ∧
     ergMainPercent .threshold < ergMainPercent .vo2max) ∧
    (zwoMainPower .recovery < zwoMainPower .endurance ∧
     zwoMainPower .endurance < zwoMainPower .tempo ∧
     zwoMainPower .tempo < zwoMainPower .intervals ∧
     zwoMainPower .intervals < zwoMainPower .threshold ∧
     zwoMainPower .threshold < zwoMainPower .vo2max) := by
  norm_num [ergMainPercent, zwoMainPower]

/-- A concrete unstructured 60-minute tempo bike workout (input of the C5
counterexample). -/
def tempoWorkout : Workout :=
  { id := "w-tempo", name := "Tempo Ride", sport := .bike, type := .tempo,
    durationMinutes := some 60 }

/-- Claim C5, counterexample: for an unstructured tempo workout the warm-up
phase ends at the fixed 65% (ERG breakpoint `(6, 65)`, ZWO
`PowerHigh="0.65"`), while the selected main intensity is 80% / 0.80 — the
warm-up's ending intensity does not equal the main-set intensity. -/
theorem C5_counterexample :
    (generateSimpleDataPoints tempoWorkout)[1]? = some (6, 65) ∧
    (generateSimpleDataPoints tempoWorkout)[2]? = some (6, 80) ∧
    (65 : ℚ) ≠ 80 ∧
    (generateSimpleWorkout tempoWorkout)[0]? =
      some (.warmup 360 (40/100) (65/100)) ∧
    zwoMainPower tempoWorkout.type = 80/100 ∧
    (65/100 : ℚ) ≠ 80/100 := by
  refine ⟨?_, ?_, by norm_num, ?_, by norm_num [tempoWorkout, zwoMainPower], by norm_num⟩ <;>
    norm_num [generateSimpleDataPoints, generateSimpleWorkout, tempoWorkout,
      effectiveTotalMinutes, warmupMinutes, cooldownMinutes, jsRound,
      ergMainPercent, zwoMainPower]

/-- Claim C5 (amended): for every unstructured workout the synthesizer's
warm-up ramps from the fixed low fraction 40% up to the fixed fraction 65%
(not up to the selected main intensity, which it equals only when that
intensity is 65), and the cool-down ramps from 60% down to 40%: the ERG
profile's intensities are `[40, 65, main, main, 60, 40]` and the ZWO segment
list starts with `<Warmup PowerLow="0.40" PowerHigh="0.65">` and ends with
`<Cooldown PowerLow="0.40" PowerHigh="0.60">`. -/
theorem C5_main (w : Workout) :
    (generateSimpleDataPoints w).map Prod.snd =
      [40, 65, ergMainPercent w.type, ergMainPercent w.type, 60, 40] ∧
    (generateSimpleWorkout w).head? =
      some (.warmup (warmupMinutes (effectiveTotalMinutes w) * 60) (40/100) (65/100)) ∧
    (generateSimpleWorkout w).getLast? =
      some (.cooldown (cooldownMinutes (effectiveTotalMinutes w) * 60) (40/100) (60/100)) := by
  refine ⟨?_, ?_, ?_⟩ <;> simp [generateSimpleDataPoints, generateSimpleWorkout]

/-- Claim C9: when an unstructured workout's `durationMinutes` is absent or
zero, each encoder's simple three-phase synthesis behaves exactly as if the
total duration were 60 minutes (the JavaScript `|| 60` fallback treats both
`undefined` and `0` as falsy). -/
theorem C9_main (w : Workout)
    (h : w.durationMinutes = none ∨ w.durationMinutes = some 0) :
    generateSimpleDataPoints w =
      generateSimpleDataPoints { w with durationMinutes := some 60 } ∧
    generateSimpleWorkout w =
      generateSimpleWorkout { w with durationMinutes := some 60 } ∧
    generateSimpleSteps w =
      generateSimpleSteps { w with durationMinutes := some 60 } := by
  have h60 : effectiveTotalMinutes w = 60 := by
    rcases h with h | h <;> simp [effectiveTotalMinutes, h]
  have h60' : effectiveTotalMinutes { w with durationMinutes := some 60 } = 60 := by
    simp [effectiveTotalMinutes]
  refine ⟨?_, ?_, ?_⟩ <;>
    simp [generateSimpleDataPoints, generateSimpleWorkout, generateSimpleSteps, h60, h60']

/-- A concrete unstructured bike workout with no `durationMinutes` (input of
the C9 witness). -/
def noDurationWorkout : Workout :=
  { id := "w-nodur", name := "Ride", sport := .bike, type := .endurance }

/-- Witness for C9 at a workout with absent duration. -/
theorem C9_witness :
    (noDurationWorkout.durationMinutes = none ∨
      noDurationWorkout.durationMinutes = some 0) ∧
    generateSimpleDataPoints noDurationWorkout =
      generateSimpleDataPoints { noDurationWorkout with durationMinutes := some 60 } ∧
    generateSimpleWorkout noDurationWorkout =
      generateSimpleWorkout { noDurationWorkout with durationMinutes := some 60 } ∧
    generateSimpleSteps noDurationWorkout =
      generateSimpleSteps { noDurationWorkout with durationMinutes := some 60 } :=
  ⟨Or.inl rfl, C9_main noDurationWorkout (Or.inl rfl)⟩

/-- A 5-minute recovery step at 50% (used by the C2 inputs). -/
def recoveryOnlyStep : WorkoutStep :=
  { type := .recovery,
    duration := { value := 5, unit := .minutes },
    intensity := { unit := .percentFtp, value := 50 } }

/-- A concrete interval set with `repeats = 2` and a single recovery step —
its steps do not match the one-work + one-recovery pattern, and it contains
no work step (input of the C2 counterexample and witness). -/
def recoveryOnlySet : IntervalSet :=
  { repeats := 2, steps := [recoveryOnlyStep] }

/-- A 3-minute work step at 110% (used by the C2 inputs). -/
def mismatchedWorkStep : WorkoutStep :=
  { type := .work,
    duration := { value := 3, unit := .minutes },
    intensity := { unit := .percentFtp, value := 110 } }

/-- A concrete interval set with `repeats = 2` and three steps (one work, two
recovery) — its steps do not match the one-work + one-recovery pattern, but
it does contain a work step (input of the C2 counterexample and witness). -/
def mismatchedWorkSet : IntervalSet :=
  { repeats := 2, steps := [mismatchedWorkStep, recoveryOnlyStep, recoveryOnlyStep] }

/-- Claim C2, counterexample, refuting both halves of the claimed fallback on
shape-mismatched sets:
(a) on a set with `repeats = 2` whose steps contain no work step, the
fallback emits each step ONCE (a single `<SteadyState>`), not `repeats` times
(the claimed `repeats × steps.length = 2` expanded segments);
(b) on a set with `repeats = 2` and three steps (work, recovery, recovery) —
also not the one-work + one-recovery shape — there is no per-step fallback
at all: the set IS collapsed into a single `<IntervalsT>` element, not
expanded into `repeats × steps.length = 6` individual segments. -/
theorem C2_counterexample :
    generateIntervalSet recoveryOnlySet = [.steadyState 300 (50/100) .none] ∧
    (generateIntervalSet recoveryOnlySet).length = 1 ∧
    recoveryOnlySet.repeats * recoveryOnlySet.steps.length = 2 ∧
    generateIntervalSet mismatchedWorkSet =
      [.intervalsT 2 180 300 (110/100) (50/100) .none] ∧
    (generateIntervalSet mismatchedWorkSet).length = 1 ∧
    mismatchedWorkSet.repeats * mismatchedWorkSet.steps.length = 6 := by
  have hfind : recoveryOnlySet.steps.find? (fun s => decide (s.type = .work)) = none := rfl
  have hfindw : mismatchedWorkSet.steps.find? (fun s => decide (s.type = .work)) =
      some mismatchedWorkStep := rfl
  have hfindr : mismatchedWorkSet.steps.find?
      (fun s => decide (s.type = .recovery ∨ s.type = .rest)) = some recoveryOnlyStep := rfl
  have hone : generateIntervalSet recoveryOnlySet = [.steadyState 300 (50/100) .none] := by
    norm_num [generateIntervalSet, hfind, recoveryOnlySet, recoveryOnlyStep,
      generateSteadyState, steadyCadenceAttr, durationToSeconds, intensityToDecimal,
      if_neg (show ¬ StepType.recovery = StepType.work by simp)]
  have htwo : generateIntervalSet mismatchedWorkSet =
      [.intervalsT 2 180 300 (110/100) (50/100) .none] := by
    simp only [generateIntervalSet, hfindw, hfindr]
    norm_num [mismatchedWorkSet, mismatchedWorkStep, recoveryOnlyStep,
      durationToSeconds, intensityToDecimal]
  exact ⟨hone, by rw [hone]; rfl, by norm_num [recoveryOnlySet, recoveryOnlyStep],
    htwo, by rw [htwo]; rfl, by norm_num [mismatchedWorkSet]⟩

/-- Claim C2 (amended): the ZWO encoder falls back to per-step emission
exactly when the interval set has NO work-typed step, and that fallback emits
each step of the set exactly once as an individual `<SteadyState>` segment
(ignoring `repeats`), rather than failing or collapsing the set; whenever a
work step is present — even when the shape is not one work + one recovery —
the set is instead collapsed into a single `<IntervalsT>` element whose
repeat count is the set's `repeats`. -/
theorem C2_main (iset : IntervalSet) :
    ((∀ s ∈ iset.steps, s.type ≠ .work) →
      generateIntervalSet iset = iset.steps.map generateSteadyState ∧
      (generateIntervalSet iset).length = iset.steps.length) ∧
    ((∃ s ∈ iset.steps, s.type = .work) →
      ∃ onDuration offDuration onPower offPower cadence,
        generateIntervalSet iset =
          [ZwoSegment.intervalsT iset.repeats onDuration offDuration onPower offPower
            cadence]) := by
  constructor
  · intro h
    have hfind : iset.steps.find? (fun s => decide (s.type = .work)) = none := by
      apply List.find?_eq_none.mpr
      intro x hx
      simpa using h x hx
    constructor
    · simp [generateIntervalSet, hfind]
    · simp [generateIntervalSet, hfind]
  · intro h
    have hsome : (iset.steps.find? (fun s => decide (s.type = .work))).isSome := by
      rw [List.find?_isSome]
      obtain ⟨x, hx, hty⟩ := h
      exact ⟨x, hx, by simpa using hty⟩
    obtain ⟨w, hw⟩ := Option.isSome_iff_exists.mp hsome
    rcases hrec : iset.steps.find?
        (fun s => decide (s.type = .recovery) || decide (s.type = .rest)) with _ | r
    · exact ⟨durationToSeconds w.duration.value w.duration.unit, 60,
        intensityToDecimal w.intensity.value, 1/2,
        (match w.cadence with
          | some c => CadenceAttr.single (c.low.getD 90)
          | Option.none => CadenceAttr.none),
        by simp [generateIntervalSet, hw, hrec]⟩
    · exact ⟨durationToSeconds w.duration.value w.duration.unit,
        durationToSeconds r.duration.value r.duration.unit,
        intensityToDecimal w.intensity.value, intensityToDecimal r.intensity.value,
        (match w.cadence with
          | some c => CadenceAttr.single (c.low.getD 90)
          | Option.none => CadenceAttr.none),
        by simp [generateIntervalSet, hw, hrec]⟩

/-- Witness for C2, exercising both branches: the work-free set takes the
per-step fallback, the work-containing three-step set is collapsed into a
single `<IntervalsT>`. -/
theorem C2_witness :
    ((∀ s ∈ recoveryOnlySet.steps, s.type ≠ StepType.work) ∧
      generateIntervalSet recoveryOnlySet = recoveryOnlySet.steps.map generateSteadyState ∧
      (generateIntervalSet recoveryOnlySet).length = recoveryOnlySet.steps.length) ∧
    ((∃ s ∈ mismatchedWorkSet.steps, s.type = StepType.work) ∧
      ∃ onDuration offDuration onPower offPower cadence,
        generateIntervalSet mismatchedWorkSet =
          [ZwoSegment.intervalsT mismatchedWorkSet.repeats onDuration offDuration onPower
            offPower cadence]) := by
  have h1 : ∀ s ∈ recoveryOnlySet.steps, s.type ≠ StepType.work := by
    intro s hs
    simp only [recoveryOnlySet, List.mem_singleton] at hs
    simp [hs, recoveryOnlyStep]
  have h2 : ∃ s ∈ mismatchedWorkSet.steps, s.type = StepType.work :=
    ⟨mismatchedWorkStep, by simp [mismatchedWorkSet], rfl⟩
  exact ⟨⟨h1, (C2_main recoveryOnlySet).1 h1⟩, ⟨h2, (C2_main mismatchedWorkSet).2 h2⟩⟩

/-- Claim C3: the batch exporter's `errors` list is ALWAYS empty — for every
generator family (including one whose generator fails on every workout),
every plan and every format.  `generateWorkoutContent` catches generator
exceptions internally and returns `null`, so a failed workout is counted as
`skipped` and the `catch` branch in `exportAllWorkouts` (the only writer of
`errors`) is unreachable, contradicting the claim that each encode failure
is recorded as an `errors` entry. -/
theorem C3_main (g : Generators) (plan : TrainingPlan) (format : BatchFormat) :
    (exportAllWorkouts g plan format).errors = [] := by
  suffices h : ∀ (l : List Workout) (acc : BatchResult),
      (l.foldl (processWorkout g format) acc).errors = acc.errors by
    exact h (planWorkouts plan) _
  intro l
  induction l with
  | nil => intro acc; rfl
  | cons w rest ih =>
    intro acc
    rw [List.foldl_cons, ih]
    unfold processWorkout
    split
    · rfl
    · split
      · rfl
      · split <;> rfl

/-- Claim C8: for every (format, sport) pair outside the support table — ZWO
outside {bike, run}, MRC outside {bike}, FIT for rest or race — the format's
generator raises its named unsupported-operation error (no artifact), and
`exportWorkout` on that pair returns `{success := false, error}` (with the
guard's message) without throwing past its boundary. -/
theorem C8_main (w : Workout) :
    (w.sport ≠ .bike ∧ w.sport ≠ .run →
      (∃ e, generateZwo w = .error e) ∧
      exportWorkout w .zwo =
        { success := false, filename := "",
          error := some "Zwift export only supports bike and run workouts" }) ∧
    (w.sport ≠ .bike →
      (∃ e, generateMrc w = .error e) ∧
      exportWorkout w .mrc =
        { success := false, filename := "",
          error := some "MRC export only supports bike workouts" }) ∧
    (w.sport = .rest ∨ w.sport = .race →
      (∃ e, generateFit w = .error e) ∧
      exportWorkout w .fit =
        { success := false, filename := "",
          error := some ("FIT export not supported for " ++ sportName w.sport ++
            " workouts") }) := by
  refine ⟨fun h => ?_, fun h => ?_, fun h => ?_⟩
  · have hz : isZwoSupported w.sport = false := by
      simp [isZwoSupported, h.1, h.2]
    exact ⟨⟨"ZWO export not supported for " ++ sportName w.sport ++ " workouts",
      by simp [generateZwo, hz]⟩, by simp [exportWorkout, hz]⟩
  · have he : isErgSupported w.sport = false := by
      simp [isErgSupported, h]
    exact ⟨⟨"ERG/MRC export only supports bike workouts",
      by simp [generateMrc, he]⟩, by simp [exportWorkout, he]⟩
  · have hf : isFitSupported w.sport = false := by
      rcases h with h | h <;> simp [isFitSupported, h]
    exact ⟨⟨"FIT export not supported for " ++ sportName w.sport ++ " workouts",
      by simp [generateFit, hf]⟩, by simp [exportWorkout, hf]⟩

/-- A swim workout (ZWO-unsupported and MRC-unsupported; C8 witness input). -/
def swimWorkout : Workout :=
  { id := "w-swim", name := "Swim", sport := .swim, type := .endurance }

/-- A rest-day workout (FIT-unsupported; C8 witness input). -/
def restWorkout : Workout :=
  { id := "w-rest", name := "Rest", sport := .rest, type := .rest }

/-- Witness for C8: the swim workout is rejected by ZWO and MRC, the rest
workout by FIT, each with the structured failure result. -/
theorem C8_witness :
    ((∃ e, generateZwo swimWorkout = .error e) ∧
      exportWorkout swimWorkout .zwo =
        { success := false, filename := "",
          error := some "Zwift export only supports bike and run workouts" }) ∧
    ((∃ e, generateMrc swimWorkout = .error e) ∧
      exportWorkout swimWorkout .mrc =
        { success := false, filename := "",
          error := some "MRC export only supports bike workouts" }) ∧
    ((∃ e, generateFit restWorkout = .error e) ∧
      exportWorkout restWorkout .fit =
        { success := false, filename := "",
          error := some ("FIT export not supported for " ++ sportName restWorkout.sport ++
            " workouts") }) :=
  ⟨(C8_main swimWorkout).1 (by refine ⟨?_, ?_⟩ <;> simp [swimWorkout]),
   (C8_main swimWorkout).2.1 (by simp [swimWorkout]),
   (C8_main restWorkout).2.2 (Or.inl (by simp [restWorkout]))⟩

/-! ### Structure of the breakpoint list produced by `dataPointsAux` -/

/-- Both branches of the step loop contribute the same two time coordinates:
the current minute and the current minute advanced by the step's duration. -/
theorem dataPointsAux_cons_fst (m : ℚ) (st : WorkoutStep) (rest : List WorkoutStep) :
    (dataPointsAux m (st :: rest)).map Prod.fst =
      m :: (m + getDurationMinutes st)
        :: (dataPointsAux (m + getDurationMinutes st) rest).map Prod.fst := by
  cases hlo : st.intensity.valueLow <;> cases hhi : st.intensity.valueHigh <;>
    simp [dataPointsAux, hlo, hhi]

/-- Each flattened step contributes exactly two breakpoints. -/
theorem dataPointsAux_length (m : ℚ) (l : List WorkoutStep) :
    (dataPointsAux m l).length = 2 * l.length := by
  induction l generalizing m with
  | nil => simp [dataPointsAux]
  | cons st rest ih =>
    cases hlo : st.intensity.valueLow <;> cases hhi : st.intensity.valueHigh <;>
      simp [dataPointsAux, hlo, hhi, ih] <;> ring

/-- The last time coordinate of a non-empty breakpoint list is the start time
plus the sum of the steps' durations in minutes. -/
theorem dataPointsAux_getLast_fst (m : ℚ) (l : List WorkoutStep) (h : l ≠ []) :
    ((dataPointsAux m l).map Prod.fst).getLast? =
      some (m + (l.map getDurationMinutes).sum) := by
  induction l generalizing m with
  | nil => exact absurd rfl h
  | cons st rest ih =>
    rw [dataPointsAux_cons_fst]
    cases rest with
    | nil => simp [dataPointsAux]
    | cons st2 rest2 =>
      have htail := ih (m + getDurationMinutes st) (by simp)
      rw [dataPointsAux_cons_fst] at htail
      rw [List.getLast?_cons_cons] at htail
      rw [dataPointsAux_cons_fst, List.getLast?_cons_cons, List.getLast?_cons_cons,
        List.getLast?_cons_cons, htail]
      congr 1
      simp only [List.map_cons, List.sum_cons]
      ring

/-- A step with non-negative duration value converts to a non-negative number
of minutes under every duration unit. -/
theorem getDurationMinutes_nonneg (st : WorkoutStep) (h : 0 ≤ st.duration.value) :
    0 ≤ getDurationMinutes st := by
  cases hu : st.duration.unit <;> simp [getDurationMinutes, hu] <;> positivity

/-- Time coordinates emitted from start time `m` are non-decreasing and all
at least `m`, provided every step's duration value is non-negative. -/
theorem dataPointsAux_chain (m : ℚ) (l : List WorkoutStep)
    (h : ∀ st ∈ l, 0 ≤ st.duration.value) :
    List.Chain' (· ≤ ·) ((dataPointsAux m l).map Prod.fst) ∧
      ∀ x ∈ (dataPointsAux m l).map Prod.fst, m ≤ x := by
  induction l generalizing m with
  | nil => simp [dataPointsAux]
  | cons st rest ih =>
    have hd : 0 ≤ getDurationMinutes st :=
      getDurationMinutes_nonneg st (h st (by simp))
    have ihrest := ih (m + getDurationMinutes st) (fun s hs => h s (by simp [hs]))
    rw [dataPointsAux_cons_fst]
    constructor
    · refine List.chain'_cons.mpr ⟨by linarith, ?_⟩
      refine List.chain'_cons'.mpr ⟨?_, ihrest.1⟩
      intro y hy
      exact ihrest.2 y (List.mem_of_mem_head? hy)
    · intro x hx
      rcases List.mem_cons.mp hx with rfl | hx
      · exact le_refl x
      · rcases List.mem_cons.mp hx with rfl | hx
        · linarith
        · have := ihrest.2 x hx
          linarith

/-- Claim C6: for every structured workout with at least one flattened step,
the minutes coordinate of the final breakpoint produced by the ERG/MRC
encoder equals the sum of all flattened steps' durations in minutes — total
elapsed time is conserved by the flattening. -/
theorem C6_main (s : StructuredWorkout) (h : expandedSteps s ≠ []) :
    ((generateDataPoints s).map Prod.fst).getLast? =
      some (((expandedSteps s).map getDurationMinutes).sum) := by
  have hlast := dataPointsAux_getLast_fst 0 (expandedSteps s) h
  simpa [generateDataPoints] using hlast

/-- 10-minute warm-up ramp step 50→65% (spec §8.7 scenario). -/
def scenarioWarmupStep : WorkoutStep where
  type := .warmup
  duration := { value := 10, unit := .minutes }
  intensity := { unit := .percentFtp, value := 65, valueLow := some 50, valueHigh := some 65 }

/-- 5-minute work step at 100% (spec §8.7 scenario). -/
def scenarioWorkStep : WorkoutStep where
  type := .work
  duration := { value := 5, unit := .minutes }
  intensity := { unit := .percentFtp, value := 100 }

/-- 5-minute recovery step at 50% (spec §8.7 scenario). -/
def scenarioRecoveryStep : WorkoutStep where
  type := .recovery
  duration := { value := 5, unit := .minutes }
  intensity := { unit := .percentFtp, value := 50 }

/-- 10-minute cool-down ramp step 60→40% (spec §8.7 scenario). -/
def scenarioCooldownStep : WorkoutStep where
  type := .cooldown
  duration := { value := 10, unit := .minutes }
  intensity := { unit := .percentFtp, value := 50, valueLow := some 40, valueHigh := some 60 }

/-- The structured scenario of spec §8.7: a 10-minute warm-up ramp 50→65%,
a 3-repeat interval set of (5 min @ 100%, 5 min @ 50%), and a 10-minute
cool-down ramp 60→40% (input of the C6 witness). -/
def scenarioStructure : StructuredWorkout where
  warmup := [scenarioWarmupStep]
  main := [.set { repeats := 3, steps := [scenarioWorkStep, scenarioRecoveryStep] }]
  cooldown := [scenarioCooldownStep]

/-- Witness for C6 at the spec §8.7 scenario (total elapsed time 50 minutes). -/
theorem C6_witness :
    expandedSteps scenarioStructure ≠ [] ∧
    ((generateDataPoints scenarioStructure).map Prod.fst).getLast? =
      some (((expandedSteps scenarioStructure).map getDurationMinutes).sum) :=
  have h : expandedSteps scenarioStructure ≠ [] := by
    simp [expandedSteps, scenarioStructure]
  ⟨h, C6_main scenarioStructure h⟩

/-! ### Interval expansion arithmetic -/

/-- Block-order indexing of the flattened repeats: entry `i·k + j` of the
expansion is step `j` of the block. -/
theorem flatten_replicate_getElem (steps : List WorkoutStep) :
    ∀ (i n j : ℕ), i < n → j < steps.length →
      ((List.replicate n steps).flatten)[i * steps.length + j]? = steps[j]? := by
  intro i
  induction i with
  | zero =>
    intro n j hn hj
    cases n with
    | zero => omega
    | succ n' =>
      rw [List.replicate_succ, List.flatten_cons]
      simpa using List.getElem?_append_left hj
  | succ i' ih =>
    intro n j hn hj
    cases n with
    | zero => omega
    | succ n' =>
      rw [List.replicate_succ, List.flatten_cons]
      have hlen : steps.length ≤ (i' + 1) * steps.length + j := by
        have : 1 * steps.length ≤ (i' + 1) * steps.length :=
          Nat.mul_le_mul_right _ (by omega)
        omega
      rw [List.getElem?_append_right hlen]
      have harith : (i' + 1) * steps.length + j - steps.length =
          i' * steps.length + j := by
        have : (i' + 1) * steps.length = i' * steps.length + steps.length :=
          Nat.succ_mul i' steps.length
        omega
      rw [harith]
      exact ih n' j (by omega) hj

/-- Claim C7: an IntervalSet with `repeats = n` and `k` steps expands to
exactly `n × k` flattened steps, in block order (entry `i·k + j` of the
expansion is step `j`, so every step of repetition `i` precedes every step of
repetition `i+1`), and the ERG encoder emits exactly two breakpoints per
flattened step — hence `2·n·k` breakpoints for the set. -/
theorem C7_main (iset : IntervalSet) :
    (expandMainItem (.set iset)).length = iset.repeats * iset.steps.length ∧
    (∀ i j, i < iset.repeats → j < iset.steps.length →
      (expandMainItem (.set iset))[i * iset.steps.length + j]? = iset.steps[j]?) ∧
    ∀ s : StructuredWorkout,
      (generateDataPoints s).length = 2 * (expandedSteps s).length := by
  refine ⟨?_, ?_, ?_⟩
  · simp [expandMainItem, List.length_flatten, List.map_replicate, List.sum_replicate,
      smul_eq_mul]
  · intro i j hi hj
    exact flatten_replicate_getElem iset.steps i iset.repeats j hi hj
  · intro s
    simp [generateDataPoints, dataPointsAux_length]

/-- A concrete 2×2 interval set and a structure containing it (C7 witness
inputs). -/
def pairSet : IntervalSet :=
  { repeats := 2, steps :=
    [{ type := .work,
       duration := { value := 3, unit := .minutes },
       intensity := { unit := .percentFtp, value := 110 } },
     { type := .recovery,
       duration := { value := 3, unit := .minutes },
       intensity := { unit := .percentFtp, value := 50 } }] }

/-- Structure whose main set is just `pairSet` (C7 witness input). -/
def pairStructure : StructuredWorkout := { main := [.set pairSet] }

/-- Witness for C7 at the concrete 2×2 interval set: 4 flattened steps, the
second repetition's second step sits at index `1·2 + 1`, and the encoder
emits `2 · 4 = 8` breakpoints. -/
theorem C7_witness :
    (expandMainItem (.set pairSet)).length = pairSet.repeats * pairSet.steps.length ∧
    (expandMainItem (.set pairSet))[1 * pairSet.steps.length + 1]? = pairSet.steps[1]? ∧
    (generateDataPoints pairStructure).length = 2 * (expandedSteps pairStructure).length :=
  ⟨(C7_main pairSet).1,
   (C7_main pairSet).2.1 1 1 (by simp [pairSet]) (by simp [pairSet]),
   (C7_main pairSet).2.2 pairStructure⟩

/-- Claim C10: for every structured workout in which every flattened step's
duration value is non-negative, the minutes coordinates of the ERG/MRC
breakpoint list are non-decreasing from the first breakpoint to the last. -/
theorem C10_main (s : StructuredWorkout)
    (h : ∀ st ∈ expandedSteps s, 0 ≤ st.duration.value) :
    List.Chain' (· ≤ ·) ((generateDataPoints s).map Prod.fst) := by
  have hc := dataPointsAux_chain 0 (expandedSteps s) h
  simpa [generateDataPoints] using hc.1

/-- 300-second warm-up step at 60% (C10 witness input). -/
def monotoneWarmupStep : WorkoutStep where
  type := .warmup
  duration := { value := 300, unit := .seconds }
  intensity := { unit := .percentFtp, value := 60 }

/-- 2-minute work step at 100% (C10 witness input). -/
def monotoneWorkStep : WorkoutStep where
  type := .work
  duration := { value := 2, unit := .minutes }
  intensity := { unit := .percentFtp, value := 100 }

/-- 4-minute steady step at 70% (C10 witness input). -/
def monotoneSteadyStep : WorkoutStep where
  type := .active
  duration := { value := 4, unit := .minutes }
  intensity := { unit := .percentFtp, value := 70 }

/-- 5-minute cool-down step at 45% (C10 witness input). -/
def monotoneCooldownStep : WorkoutStep where
  type := .cooldown
  duration := { value := 5, unit := .minutes }
  intensity := { unit := .percentFtp, value := 45 }

/-- A small structure with a warm-up step, an interval set, a single steady
step and a cool-down step, all with non-negative durations (C10 witness
input). -/
def monotoneScenario : StructuredWorkout where
  warmup := [monotoneWarmupStep]
  main := [.set { repeats := 2, steps := [monotoneWorkStep] }, .step monotoneSteadyStep]
  cooldown := [monotoneCooldownStep]

/-- Witness for C10 at the concrete scenario. -/
theorem C10_witness :
    (∀ st ∈ expandedSteps monotoneScenario, 0 ≤ st.duration.value) ∧
    List.Chain' (· ≤ ·) ((generateDataPoints monotoneScenario).map Prod.fst) :=
  have h : ∀ st ∈ expandedSteps monotoneScenario, 0 ≤ st.duration.value := by
    intro st hst
    simp only [monotoneScenario, expandedSteps, expandMainItem] at hst
    simp only [expandMainItem, List.flatMap_cons, List.flatMap_nil, List.append_nil,
      List.cons_append, List.nil_append, List.mem_cons, List.not_mem_nil, or_false,
      List.replicate, List.flatten_cons, List.flatten_nil] at hst
    rcases hst with rfl | rfl | rfl | rfl | rfl <;>
      norm_num [monotoneWarmupStep, monotoneWorkStep, monotoneSteadyStep,
        monotoneCooldownStep]
  ⟨h, C10_main monotoneScenario h⟩

/-! ### Line folding -/

/-- Stripping each continuation line's leading space and concatenating
restores the folded remainder. -/
theorem foldChunks_flatten (r : List Char) :
    ((foldChunks r).map List.tail).flatten = r := by
  induction r using foldChunks.induct with
  | case1 r hr =>
    rw [foldChunks, if_pos hr]
    simp [List.isEmpty_iff.mp hr]
  | case2 r hr ih =>
    rw [foldChunks, if_neg hr]
    simp only [List.map_cons, List.tail_cons, List.flatten_cons]
    rw [ih]
    exact List.take_append_drop 74 r

/-- Every continuation line starts with one space and carries at most 74
further code units. -/
theorem foldChunks_mem (r : List Char) :
    ∀ c ∈ foldChunks r, c.head? = some ' ' ∧ c.tail.length ≤ 74 := by
  induction r using foldChunks.induct with
  | case1 r hr =>
    rw [foldChunks, if_pos hr]
    intro c hc
    simp at hc
  | case2 r hr ih =>
    rw [foldChunks, if_neg hr]
    intro c hc
    rcases List.mem_cons.mp hc with rfl | hc
    · refine ⟨rfl, ?_⟩
      simp only [List.tail_cons, List.length_take]
      omega
    · exact ih c hc

/-- Claim C4, counterexample: the escaper turns a 75-character line ending in
`;` into a 76-character line whose last two characters are the escape pair
`\;` — and `foldLine` then splits exactly between the backslash and the `;`:
the first physical line ends with the lone backslash and the continuation
line carries the `;`.  `foldLine` therefore does split in the middle of an
already-escaped sequence (it cuts at fixed code-unit offsets). -/
theorem C4_counterexample :
    escapeIcsText (List.replicate 74 'a' ++ [';']) =
      List.replicate 74 'a' ++ ['\\', ';'] ∧
    foldLine (List.replicate 74 'a' ++ ['\\', ';']) =
      [List.replicate 74 'a' ++ ['\\'], [' ', ';']] ∧
    (List.replicate 74 'a' ++ ['\\'] : List Char).getLast? = some '\\' := by
  refine ⟨by decide, ?_, by decide⟩
  have hfcnil : foldChunks ([] : List Char) = [] := by rw [foldChunks]; simp
  have hfc : foldChunks [';'] = [[' ', ';']] := by
    rw [foldChunks]
    rw [List.take_of_length_le (by decide), List.drop_eq_nil_of_le (by decide), hfcnil]
    simp
  have hlen : ¬ (List.replicate 74 'a' ++ ['\\', ';'] : List Char).length ≤ 75 := by
    decide
  rw [foldLine, if_neg hlen]
  rw [show (List.replicate 74 'a' ++ ['\\', ';'] : List Char).take 75 =
      List.replicate 74 'a' ++ ['\\'] from by decide]
  rw [show (List.replicate 74 'a' ++ ['\\', ';'] : List Char).drop 75 = [';'] from by decide]
  rw [hfc]

/-- Claim C4 (amended): `foldLine` splits any physical line exceeding 75
UTF-16 code units (octets only for ASCII text) into a first physical line of
exactly the first 75 code units followed by continuation lines, each
prefixed with one space and carrying at most 74 further code units, such
that stripping the space prefixes and concatenating restores the original
line.  The split points are at fixed offsets: they take no account of
multi-byte characters or of backslash-escape sequences (see the
counterexample). -/
theorem C4_main (line : List Char) (h : 75 < line.length) :
    (foldLine line).head? = some (line.take 75) ∧
    (∀ c ∈ (foldLine line).tail, c.head? = some ' ' ∧ c.tail.length ≤ 74) ∧
    line.take 75 ++ ((foldLine line).tail.map List.tail).flatten = line := by
  have hnot : ¬ line.length ≤ 75 := by omega
  rw [foldLine, if_neg hnot]
  refine ⟨rfl, ?_, ?_⟩
  · intro c hc
    exact foldChunks_mem _ c (by simpa using hc)
  · simp only [List.tail_cons]
    rw [foldChunks_flatten]
    exact List.take_append_drop 75 line

/-- Witness for C4 at the 76-code-unit escaped line. -/
theorem C4_witness :
    75 < (List.replicate 74 'a' ++ ['\\', ';'] : List Char).length ∧
    (foldLine (List.replicate 74 'a' ++ ['\\', ';'])).head? =
      some ((List.replicate 74 'a' ++ ['\\', ';'] : List Char).take 75) ∧
    (∀ c ∈ (foldLine (List.replicate 74 'a' ++ ['\\', ';'])).tail,
      c.head? = some ' ' ∧ c.tail.length ≤ 74) ∧
    (List.replicate 74 'a' ++ ['\\', ';'] : List Char).take 75 ++
        ((foldLine (List.replicate 74 'a' ++ ['\\', ';'])).tail.map List.tail).flatten =
      List.replicate 74 'a' ++ ['\\', ';'] :=
  ⟨by decide, C4_main (List.replicate 74 'a' ++ ['\\', ';']) (by decide)⟩

end Coach
